import Mathlib

/-!
# Verification of the HungerRush report aggregation route

Shallow embedding of the `POST` handler of the order-report API route
(app/api/.../route.ts): time-of-day extraction from the request's ISO
strings, the row filter on the spreadsheet data (12-hour time parsing via
the regex `(\d+):(\d+)\s*(AM|PM)` with the `i` flag), the channel/payment
classification, the summary aggregation with `toFixed(2)` rounding at the
end, the production cache branch, the fallback responses of the two
`catch` blocks, and the `updateStatus` stage machine.

Numbers are modelled as `ℚ` (the route accumulates with JS `+` and rounds
once via `Number(x.toFixed(2))`, modelled as rounding to 2 decimals);
JS `NaN` produced by `parseInt` on non-numeric text is modelled as `none`
in `JsNum := Option Int`, with all `NaN` comparisons false, as in JS.
-/

namespace HungerRush

/-- A JS number that may be `NaN` (`none`). `parseInt` on a string without
leading digits yields `NaN`; every comparison against `NaN` is false. -/
abbrev JsNum := Option Int

/-- `a > b` with `b` possibly `NaN` (false on `NaN`), as in JS. -/
def jsGt (a : Int) (b : JsNum) : Bool :=
  match b with
  | some b' => a > b'
  | none => false

/-- `a === b` with `b` possibly `NaN` (false on `NaN`), as in JS. -/
def jsEq (a : Int) (b : JsNum) : Bool :=
  match b with
  | some b' => a = b'
  | none => false

/-- `a >= b` with `b` possibly `NaN` (false on `NaN`), as in JS. -/
def jsGe (a : Int) (b : JsNum) : Bool :=
  match b with
  | some b' => a ≥ b'
  | none => false

/-- `a < b` with `b` possibly `NaN` (false on `NaN`), as in JS. -/
def jsLt (a : Int) (b : JsNum) : Bool :=
  match b with
  | some b' => a < b'
  | none => false

/-- `a <= b` with `b` possibly `NaN` (false on `NaN`), as in JS. -/
def jsLe (a : Int) (b : JsNum) : Bool :=
  match b with
  | some b' => a ≤ b'
  | none => false

/-- JS `s.includes(pat)`: case-sensitive substring containment. -/
def jsIncludes (s pat : String) : Bool :=
  s.toList.tails.any fun suf => pat.toList.isPrefixOf suf

/-- JS `/p1|p2|.../i.test(s)` for an alternation of plain literals:
some literal occurs in `s` up to ASCII case. -/
def jsTestCI (s : String) (pats : List String) : Bool :=
  pats.any fun p => jsIncludes s.toLower p.toLower

/-- Numeric value of a nonempty decimal digit string, as `parseInt` reads it
(leading zeros allowed). -/
def natOfDigits (l : List Char) : Nat :=
  l.foldl (fun n c => 10 * n + (c.toNat - '0'.toNat)) 0

/-- Leading-digit prefix of a character list, `none` when there is none
(`parseInt`'s `NaN` case). -/
def digitsPrefix (l : List Char) : Option Nat :=
  let ds := l.takeWhile Char.isDigit
  if ds.isEmpty then none else some (natOfDigits ds)

/-- JS `parseInt(s, 10)`: skip leading whitespace, optional sign, then the
maximal digit prefix; `NaN` (`none`) when no digits follow. -/
def parseIntJS (s : String) : JsNum :=
  let l := s.toList.dropWhile Char.isWhitespace
  match l with
  | '-' :: rest => (digitsPrefix rest).map fun n => -(n : Int)
  | '+' :: rest => (digitsPrefix rest).map fun n => (n : Int)
  | _ => (digitsPrefix l).map fun n => (n : Int)

/-- Attempt the regex `(\d+):(\d+)\s*(AM|PM)` (flag `i`) at the head of the
list. Returns (hour digits value, minute digits value, is-PM). Maximal-munch
on `\d+` and `\s*` agrees with JS backtracking here because a shortened
digit run is still followed by a digit (never `:`), and shortened
whitespace is still followed by whitespace (never `A`/`P`). -/
def matchTimeAt (l : List Char) : Option (Nat × Nat × Bool) :=
  let d1 := l.takeWhile Char.isDigit
  let r1 := l.dropWhile Char.isDigit
  if d1.isEmpty then none
  else
    match r1 with
    | ':' :: r2 =>
      let d2 := r2.takeWhile Char.isDigit
      let r3 := r2.dropWhile Char.isDigit
      if d2.isEmpty then none
      else
        match r3.dropWhile Char.isWhitespace with
        | c1 :: c2 :: _ =>
          if (c1.toUpper = 'A' ∨ c1.toUpper = 'P') ∧ c2.toUpper = 'M' then
            some (natOfDigits d1, natOfDigits d2, c1.toUpper = 'P')
          else none
        | _ => none
    | _ => none

/-- Leftmost match of the time regex, as JS `String.prototype.match`
searches position by position. -/
def searchTime : List Char → Option (Nat × Nat × Bool)
  | [] => none
  | c :: rest =>
    match matchTimeAt (c :: rest) with
    | some r => some r
    | none => searchTime rest

/-- The 12-to-24-hour conversion of the route:
`if (period === 'PM' && hours < 12) hours += 12;`
`if (period === 'AM' && hours === 12) hours = 0;`. -/
def to24Hour (h : Nat) (isPM : Bool) : Nat :=
  if isPM ∧ h < 12 then h + 12
  else if ¬isPM ∧ h = 12 then 0
  else h

/-- Parse a `Time` cell string into a 24-hour (hour, minute) pair, exactly
as the route's regex match plus AM/PM conversion; `none` when the regex
does not match anywhere in the string. -/
def parseTime (s : String) : Option (Nat × Nat) :=
  (searchTime s.toList).map fun r => (to24Hour r.1 r.2.2, r.2.1)

/-- A cell value of the parsed spreadsheet row, as `sheet_to_json` can
produce it: a string, a number, or absent (`undefined`). The route's
falsiness/`typeof` checks on `Date`/`Time` are modelled on this type. -/
inductive ExcelVal
  | vStr (s : String)
  | vNum (q : ℚ)
  | vAbsent
deriving DecidableEq

/-- One spreadsheet row as the route reads it. `Type_` / `Payment` model
`row.Type` / `row.Payment` where the route only ever treats them as
possibly-absent strings (optional chaining / `|| ''`); `Total` / `Tips`
model `parseFloat(row.Total) || 0` resp. `parseFloat(row.Tips) || 0`,
with `none` for an absent or non-numeric cell (the `NaN || 0` case). -/
structure Row where
  Date : ExcelVal
  Time : ExcelVal
  Type_ : Option String
  Payment : Option String
  Total : Option ℚ
  Tips : Option ℚ
deriving DecidableEq

/-- `parseFloat(row.Total) || 0`. -/
def totalOf (r : Row) : ℚ := r.Total.getD 0

/-- `parseFloat(row.Tips) || 0`. -/
def tipsOf (r : Row) : ℚ := r.Tips.getD 0

/-- `row.Payment?.includes('Cash')` coerced to boolean (case-sensitive). -/
def isCash (r : Row) : Bool :=
  match r.Payment with
  | some p => jsIncludes p "Cash"
  | none => false

/-- `/Visa|MC|AMEX/i.test(row.Payment || '')`. -/
def isCard (r : Row) : Bool :=
  jsTestCI (r.Payment.getD "") ["Visa", "MC", "AMEX"]

/-- `/Pick Up|Pickup|To Go|Web Pickup|Web Pick Up/i.test(row.Type || '')`. -/
def isInStoreType (r : Row) : Bool :=
  jsTestCI (r.Type_.getD "") ["Pick Up", "Pickup", "To Go", "Web Pickup", "Web Pick Up"]

/-- `row.Type?.includes('Delivery')` coerced to boolean (case-sensitive). -/
def isDeliveryType (r : Row) : Bool :=
  match r.Type_ with
  | some t => jsIncludes t "Delivery"
  | none => false

/-- The route's guard
`if (!row.Date || !row.Time || typeof row.Date !== 'string' || typeof row.Time !== 'string') return false`:
both fields must be nonempty strings (a number or absent value is either
falsy or fails the `typeof` test). -/
def dateTimeFieldsOk (r : Row) : Bool :=
  match r.Date, r.Time with
  | ExcelVal.vStr d, ExcelVal.vStr t => if d = "" then false else if t = "" then false else true
  | _, _ => false

/-- The 24-hour (hour, minute) pair the route extracts from `row.Time`,
when `Time` is a string the regex matches. -/
def parsedHM (r : Row) : Option (Nat × Nat) :=
  match r.Time with
  | ExcelVal.vStr t => parseTime t
  | _ => none

/-- The route's in-range test
`(hours > startHours || (hours === startHours && minutes >= startMinutes)) && (hours < endHours || (hours === endHours && minutes <= endMinutes))`,
where the window components are JS numbers (possibly `NaN`). -/
def isInRange (h m : Nat) (sh sm eh em : JsNum) : Bool :=
  (jsGt h sh || (jsEq h sh && jsGe m sm)) && (jsLt h eh || (jsEq h eh && jsLe m em))

/-- The row predicate of `data.filter(row => ...)`: the `Date`/`Time` field
guard, then the regex time parse (no match excludes the row), then the
range test; the surrounding `try`/`catch` returns false on a per-row
failure, which the total functions here cannot raise. -/
def rowPasses (sh sm eh em : JsNum) (r : Row) : Bool :=
  match r.Date, r.Time with
  | ExcelVal.vStr d, ExcelVal.vStr t =>
    if d = "" then false
    else if t = "" then false
    else
      match parseTime t with
      | some hm => isInRange hm.1 hm.2 sh sm eh em
      | none => false
  | _, _ => false

/-- Sum a per-row amount over a list, as the route's
`reduce((sum, row) => sum + amount(row), 0)`. -/
def sumBy (f : Row → ℚ) (l : List Row) : ℚ := (l.map f).sum

/-- `Number(x.toFixed(2))`: round to 2 decimal places (nearest; the exact
IEEE tie behaviour of `toFixed` is not load-bearing for any claim). -/
def round2 (q : ℚ) : ℚ := (round (q * 100) : ℤ) / 100

/-- The six-field output record of the route. -/
structure Summary where
  cashSalesInStore : ℚ
  cashSalesDelivery : ℚ
  creditCardTipsInStore : ℚ
  creditCardTipsDelivery : ℚ
  totalOrders : Nat
  averageOrderValue : ℚ
deriving DecidableEq

/-- The summary computation on the already-filtered rows `df`, exactly as
the route builds `summary` (full-precision `reduce` sums, branch guarding
the division, `toFixed(2)` on every monetary field at the end). -/
def summarizeFiltered (df : List Row) : Summary :=
  let cashSalesInStore := sumBy totalOf (df.filter fun r => isCash r && isInStoreType r)
  let cashSalesDelivery := sumBy totalOf (df.filter fun r => isCash r && isDeliveryType r)
  let creditCardTipsInStore := sumBy tipsOf (df.filter fun r => isCard r && isInStoreType r)
  let creditCardTipsDelivery := sumBy tipsOf (df.filter fun r => isCard r && isDeliveryType r)
  let totalOrders := df.length
  let totalSales := sumBy totalOf df
  let averageOrderValue : ℚ := if totalOrders > 0 then totalSales / totalOrders else 0
  { cashSalesInStore := round2 cashSalesInStore
    cashSalesDelivery := round2 cashSalesDelivery
    creditCardTipsInStore := round2 creditCardTipsInStore
    creditCardTipsDelivery := round2 creditCardTipsDelivery
    totalOrders := totalOrders
    averageOrderValue := round2 averageOrderValue }

/-- `filteredData = data.filter(...)` followed by the summary computation. -/
def summarize (rows : List Row) (sh sm eh em : JsNum) : Summary :=
  summarizeFiltered (rows.filter (rowPasses sh sm eh em))

/-- Extraction of the filter window from the request's ISO strings:
`startDateTime.split('T')[1].split(':')`, `parseInt` on components `[0]`
and `[1]`. `none` models the `TypeError` thrown when a string has no `'T'`
(so `split('T')[1]` is `undefined`); a missing `':'` component merely
yields `parseInt(undefined) = NaN`. -/
def extractWindow (s e : String) : Option (JsNum × JsNum × JsNum × JsNum) :=
  match (s.splitOn "T")[1]?, (e.splitOn "T")[1]? with
  | some st, some et =>
    let sp := st.splitOn ":"
    let ep := et.splitOn ":"
    let geti := fun (l : List String) (i : Nat) =>
      match l[i]? with
      | some x => parseIntJS x
      | none => none
    some (geti sp 0, geti sp 1, geti ep 0, geti ep 1)
  | _, _ => none

/-- The body of a report response: the six summary fields plus the
optional `_note` and `_error` string fields present on the mock/fallback
payloads. -/
structure ApiBody where
  cashSalesInStore : ℚ
  cashSalesDelivery : ℚ
  creditCardTipsInStore : ℚ
  creditCardTipsDelivery : ℚ
  totalOrders : Nat
  averageOrderValue : ℚ
  note : Option String
  errMsg : Option String
deriving DecidableEq

/-- A response body is either the `{error: ...}` configuration-error shape
or a report-shaped body. -/
inductive RespBody
  | config (msg : String)
  | report (b : ApiBody)
deriving DecidableEq

/-- An HTTP response of the route: status code and JSON body. -/
structure ApiResponse where
  status : Nat
  body : RespBody
deriving DecidableEq

/-- The `mockData` object declared at the top of the handler. -/
def mockBody : ApiBody :=
  { cashSalesInStore := 256.75
    cashSalesDelivery := 124.50
    creditCardTipsInStore := 45.25
    creditCardTipsDelivery := 32.80
    totalOrders := 24
    averageOrderValue := 42.33
    note := some "This is cached data. For live data, run the app locally."
    errMsg := none }

/-- A successful summary serialized as a response body (no `_note`,
no `_error`). -/
def bodyOfSummary (s : Summary) : ApiBody :=
  { cashSalesInStore := s.cashSalesInStore
    cashSalesDelivery := s.cashSalesDelivery
    creditCardTipsInStore := s.creditCardTipsInStore
    creditCardTipsDelivery := s.creditCardTipsDelivery
    totalOrders := s.totalOrders
    averageOrderValue := s.averageOrderValue
    note := none
    errMsg := none }

/-- The process environment as the handler reads it. -/
structure Env where
  nodeEnv : String
  hungerRushUsername : Option String
deriving DecidableEq

/-- `!process.env.HUNGER_RUSH_USERNAME`: unset and empty are both falsy. -/
def usernameOk (u : Option String) : Bool :=
  match u with
  | some s => s ≠ ""
  | none => false

/-- Outcome of the browser-automation / download / spreadsheet-decode part
of the handler, injected as a parameter: success with the decoded rows, a
failure thrown before the download-handling `try` (caught by the outer
`catch`), a missing exported file (the explicit
`throw new Error('Excel file not found in downloads folder')`), or an
artifact that cannot be decoded (`XLSX.readFile` throwing, caught by the
inner `catch`). `failBeforeDownload k` records that the first `k` of the
pre-download `updateStatus` calls ran before the throw. -/
inductive FetchOutcome
  | ok (rows : List Row)
  | failBeforeDownload (k : Nat) (msg : String)
  | exportFailed
  | parseFailed (msg : String)
deriving DecidableEq

/-- `true` on the three Report-Source failure constructors. -/
def FetchOutcome.isFailure : FetchOutcome → Bool
  | .ok _ => false
  | _ => true

/-- The in-memory `cachedResponses` object: insertion-ordered key/value
pairs, as JS object string keys are enumerated in insertion order. -/
abbrev Cache := List (String × Summary)

/-- `cachedResponses[cacheKey]` lookup. -/
def cacheLookup (c : Cache) (k : String) : Option Summary :=
  (c.find? fun p => p.1 = k).map (·.2)

/-- `cachedResponses[cacheKey] = summary`: an existing key keeps its
position and gets the new value, a new key is appended. -/
def cacheInsert (c : Cache) (k : String) (v : Summary) : Cache :=
  if (c.find? fun p => p.1 = k).isSome then
    c.map fun p => if p.1 = k then (k, v) else p
  else c ++ [(k, v)]

/-- `if (cacheKeys.length > 20) delete cachedResponses[cacheKeys[0]]`. -/
def cacheEvict (c : Cache) : Cache :=
  if c.length > 20 then c.drop 1 else c

/-- One step of the `updateStatus` helper: map the status message to a
stage via the `includes` chain, in the source's branch order; a message
matching no branch leaves `currentStatus` unchanged. -/
def updateStatusStep (cur msg : String) : String :=
  if jsIncludes msg "Navigating to HungerRush" then "navigating"
  else if jsIncludes msg "Logging in" then "logging-in"
  else if jsIncludes msg "Navigating to Reporting" then "navigating-to-reporting"
  else if jsIncludes msg "Selecting store" || jsIncludes msg "Piqua store" then "selecting-store"
  else if jsIncludes msg "Running report" then "running-report"
  else if jsIncludes msg "Exporting" || jsIncludes msg "Excel" then "exporting"
  else if jsIncludes msg "Processing" || jsIncludes msg "Filtering" || jsIncludes msg "Calculating" then "processing"
  else if jsIncludes msg "complete" then "completed"
  else cur

/-- The thirteen `updateStatus` messages issued before the download-handling
`try` block, in source order. -/
def preStatuses : List String :=
  ["Navigating to HungerRush...",
   "Logging in...",
   "Clicking login button...",
   "Navigating to Reporting...",
   "Clicking Order Details...",
   "Selecting store...",
   "Selecting Piqua store...",
   "Skipping date range - using default (current day)",
   "Running report...",
   "Waiting for report to load...",
   "Exporting to Excel...",
   "Clicking Excel export option...",
   "Waiting for download to complete..."]

/-- The `updateStatus` messages issued during a development-mode run with
the given fetch outcome (request strings appear in the `Filtering data`
message). The window extraction happens after that message, so a request
string without `'T'` throws there and the two final messages do not run. -/
def devStatuses (outcome : FetchOutcome) (s e : String) : List String :=
  match outcome with
  | .failBeforeDownload k _ => preStatuses.take k
  | .exportFailed => preStatuses ++ ["Looking for downloaded Excel file..."]
  | .parseFailed _ =>
    preStatuses ++ ["Looking for downloaded Excel file...", "Processing Excel file..."]
  | .ok _ =>
    preStatuses ++
      ["Looking for downloaded Excel file...", "Processing Excel file...",
       "Filtering data for time range: " ++ s ++ " to " ++ e] ++
      (match extractWindow s e with
       | some _ => ["Calculating summary data...", "Generation complete!"]
       | none => [])

/-- The message of the `TypeError` raised by `undefined.split` when a
request datetime has no `'T'`; it is caught by the inner `catch`. -/
def splitTypeErrorMsg : String :=
  "Cannot read properties of undefined (reading 'split')"

/-- The `POST` handler as a function of the environment, the injected
automation outcome, the two request strings, the `cachedResponses` state
and the `currentStatus` state. Returns the response, the new cache and the
new `currentStatus`. Mirrors the source's branch order: production branch
first (cache hit, else mock), then the username guard (500), then the
development run whose failures map to the two `catch` fallbacks
(`{...mockData, _error}` with HTTP 200). -/
def POST (env : Env) (outcome : FetchOutcome) (s e : String) (cache : Cache)
    (cur : String) : ApiResponse × Cache × String :=
  let cacheKey := s ++ "-" ++ e
  if env.nodeEnv = "production" then
    match cacheLookup cache cacheKey with
    | some v => (⟨200, RespBody.report (bodyOfSummary v)⟩, cache, cur)
    | none => (⟨200, RespBody.report mockBody⟩, cache, cur)
  else if usernameOk env.hungerRushUsername = false then
    (⟨500, RespBody.config "HungerRush username not configured"⟩, cache, cur)
  else
    let cur1 := (devStatuses outcome s e).foldl updateStatusStep cur
    match outcome with
    | .failBeforeDownload _ msg =>
      (⟨200, RespBody.report { mockBody with errMsg := some ("Automation failed: " ++ msg) }⟩,
        cache, cur1)
    | .exportFailed =>
      (⟨200, RespBody.report
          { mockBody with
            errMsg := some "Failed to process file: Excel file not found in downloads folder" }⟩,
        cache, cur1)
    | .parseFailed msg =>
      (⟨200, RespBody.report { mockBody with errMsg := some ("Failed to process file: " ++ msg) }⟩,
        cache, cur1)
    | .ok rows =>
      match extractWindow s e with
      | none =>
        (⟨200, RespBody.report
            { mockBody with errMsg := some ("Failed to process file: " ++ splitTypeErrorMsg) }⟩,
          cache, cur1)
      | some w =>
        let summary := summarize rows w.1 w.2.1 w.2.2.1 w.2.2.2
        (⟨200, RespBody.report (bodyOfSummary summary)⟩,
          cacheEvict (cacheInsert cache cacheKey summary), cur1)

/-! ## Claim-side definitions and helper lemmas -/

/-- Spec-side membership predicate for the time window (refinement side,
following the claim's words): the record carries date and time-of-day
string fields per the spec's `OrderRecord` data model, its time-of-day
parses to a 24-hour pair `(h, m)`, and
`(h > startHour ∨ (h = startHour ∧ m ≥ startMinute)) ∧ (h < endHour ∨ (h = endHour ∧ m ≤ endMinute))`.
The date's value is irrelevant (proved separately). -/
def specInWindow (sh sm eh em : Nat) (r : Row) : Bool :=
  dateTimeFieldsOk r &&
    match parsedHM r with
    | some hm =>
      decide ((hm.1 > sh ∨ (hm.1 = sh ∧ hm.2 ≥ sm)) ∧ (hm.1 < eh ∨ (hm.1 = eh ∧ hm.2 ≤ em)))
    | none => false

/-- The clock minute after `(h, m)`; `(h', m')` is exactly one minute
before `(h, m)` when `minuteSucc (h', m') = (h, m)`. -/
def minuteSucc (hm : Nat × Nat) : Nat × Nat :=
  if hm.2 = 59 then (hm.1 + 1, 0) else (hm.1, hm.2 + 1)

theorem summarizeFiltered_totalOrders (df : List Row) :
    (summarizeFiltered df).totalOrders = df.length := rfl

theorem summarizeFiltered_cashIn (df : List Row) :
    (summarizeFiltered df).cashSalesInStore
      = round2 (sumBy totalOf (df.filter fun r => isCash r && isInStoreType r)) := rfl

theorem summarizeFiltered_cashDel (df : List Row) :
    (summarizeFiltered df).cashSalesDelivery
      = round2 (sumBy totalOf (df.filter fun r => isCash r && isDeliveryType r)) := rfl

theorem summarizeFiltered_tipsIn (df : List Row) :
    (summarizeFiltered df).creditCardTipsInStore
      = round2 (sumBy tipsOf (df.filter fun r => isCard r && isInStoreType r)) := rfl

theorem summarizeFiltered_tipsDel (df : List Row) :
    (summarizeFiltered df).creditCardTipsDelivery
      = round2 (sumBy tipsOf (df.filter fun r => isCard r && isDeliveryType r)) := rfl

theorem summarizeFiltered_avg (df : List Row) :
    (summarizeFiltered df).averageOrderValue
      = round2 (if df.length > 0 then sumBy totalOf df / df.length else 0) := rfl

theorem isInRange_eq_decide (h m sh sm eh em : Nat) :
    isInRange h m (some sh) (some sm) (some eh) (some em)
      = decide ((h > sh ∨ (h = sh ∧ m ≥ sm)) ∧ (h < eh ∨ (h = eh ∧ m ≤ em))) := by
  rw [Bool.eq_iff_iff]
  simp only [isInRange, jsGt, jsEq, jsGe, jsLt, jsLe, Bool.and_eq_true, Bool.or_eq_true,
    decide_eq_true_eq]
  omega

/-- Pointwise agreement of the route's row predicate with the spec-side
predicate, for a window of plain (non-`NaN`) numbers. -/
theorem rowPasses_eq_specInWindow (sh sm eh em : Nat) (r : Row) :
    rowPasses (some sh) (some sm) (some eh) (some em) r = specInWindow sh sm eh em r := by
  unfold rowPasses specInWindow dateTimeFieldsOk parsedHM
  cases r.Date <;> cases r.Time <;> simp only []
  case vStr.vStr d t =>
    by_cases hd : d = "" <;> by_cases ht : t = "" <;> simp [hd, ht]
    cases parseTime t with
    | none => simp
    | some hm => simp [isInRange_eq_decide]
  all_goals simp

/-! ## C1: time-window filter counts exactly the in-range records -/

/-- C1. For every window with start ≤ end (lexicographically on
(hour, minute)) and every row sequence, `totalOrders` equals the number of
records whose time-of-day parses to a 24-hour pair inside the inclusive
window per the (hour, minute) comparison; the record's date string is
irrelevant to inclusion; a record at exactly the window's start
time-of-day is included; a record exactly one minute before the start is
excluded. -/
theorem c1_time_filter_counts (sh sm eh em : Nat)
    (hw : sh < eh ∨ (sh = eh ∧ sm ≤ em)) (rows : List Row) :
    (summarize rows (some sh) (some sm) (some eh) (some em)).totalOrders
        = rows.countP (specInWindow sh sm eh em)
      ∧ (∀ (r : Row) (d1 d2 : String), d1 ≠ "" → d2 ≠ "" →
          rowPasses (some sh) (some sm) (some eh) (some em) { r with Date := ExcelVal.vStr d1 }
            = rowPasses (some sh) (some sm) (some eh) (some em) { r with Date := ExcelVal.vStr d2 })
      ∧ (∀ r : Row, dateTimeFieldsOk r = true → parsedHM r = some (sh, sm) →
          rowPasses (some sh) (some sm) (some eh) (some em) r = true)
      ∧ (∀ (r : Row) (hm : Nat × Nat), parsedHM r = some hm → minuteSucc hm = (sh, sm) →
          rowPasses (some sh) (some sm) (some eh) (some em) r = false) := by
  refine ⟨?_, ?_, ?_, ?_⟩
  · rw [summarize, summarizeFiltered_totalOrders, ← List.countP_eq_length_filter]
    exact List.countP_congr fun r _ => by rw [rowPasses_eq_specInWindow]
  · intro r d1 d2 h1 h2
    cases hT : r.Time <;> simp [rowPasses, h1, h2, hT]
  · intro r hok hparse
    rw [rowPasses_eq_specInWindow, specInWindow, hok, hparse]
    simp only [Bool.true_and, decide_eq_true_eq]
    exact ⟨Or.inr ⟨trivial, le_refl sm⟩, hw⟩
  · intro r hm hparse hsucc
    rw [rowPasses_eq_specInWindow, specInWindow, hparse]
    cases hok : dateTimeFieldsOk r
    · simp
    · simp only [Bool.true_and]
      rw [decide_eq_false_iff_not]
      unfold minuteSucc at hsucc
      by_cases h59 : hm.2 = 59 <;> simp [h59] at hsucc <;> omega

/-- Demonstration rows: one order at the window start 07:00, one a minute
before it. -/
def demoRows : List Row :=
  [⟨ExcelVal.vStr "2025-03-26", ExcelVal.vStr "7:00 AM", some "Pickup", some "Cash", some 10, none⟩,
   ⟨ExcelVal.vStr "2025-03-27", ExcelVal.vStr "6:59 AM", some "Delivery", some "Visa", some 20, some 3⟩]

/-- Witness for C1 at the window 07:00–15:00 and `demoRows`. -/
theorem c1_time_filter_counts_witness :
    (7 < 15 ∨ (7 = 15 ∧ 0 ≤ 0))
      ∧ (summarize demoRows (some 7) (some 0) (some 15) (some 0)).totalOrders
          = demoRows.countP (specInWindow 7 0 15 0) :=
  ⟨by decide, (c1_time_filter_counts 7 0 15 0 (by decide) demoRows).1⟩

/-! ## C2: average order value -/

/-- C2. If no record passes the filter, `averageOrderValue` is `0` (the
`totalOrders > 0` guard prevents the division); otherwise it is the
full-precision sum of `total` over the filtered records divided by
`totalOrders`, rounded to 2 decimals at output. -/
theorem c2_average_order_value (rows : List Row) (sh sm eh em : JsNum) :
    ((summarize rows sh sm eh em).totalOrders = 0 →
        (summarize rows sh sm eh em).averageOrderValue = 0)
      ∧ ((summarize rows sh sm eh em).totalOrders ≠ 0 →
        (summarize rows sh sm eh em).averageOrderValue
          = round2 (sumBy totalOf (rows.filter (rowPasses sh sm eh em))
              / ((summarize rows sh sm eh em).totalOrders : ℚ))) := by
  constructor
  · intro h
    rw [summarize, summarizeFiltered_avg]
    rw [summarize, summarizeFiltered_totalOrders] at h
    simp [h, round2]
  · intro h
    rw [summarize, summarizeFiltered_avg, summarizeFiltered_totalOrders]
    rw [summarize, summarizeFiltered_totalOrders] at h
    rw [if_pos (Nat.pos_of_ne_zero h)]

/-- Witness for C2 on a nonempty filtered set. -/
theorem c2_average_order_value_witness :
    (summarize demoRows (some 7) (some 0) (some 15) (some 0)).totalOrders ≠ 0
      ∧ (summarize demoRows (some 7) (some 0) (some 15) (some 0)).averageOrderValue
          = round2 (sumBy totalOf (demoRows.filter (rowPasses (some 7) (some 0) (some 15) (some 0)))
              / ((summarize demoRows (some 7) (some 0) (some 15) (some 0)).totalOrders : ℚ)) :=
  ⟨by decide, (c2_average_order_value demoRows (some 7) (some 0) (some 15) (some 0)).2 (by decide)⟩

/-! ## Congruence machinery: replacing one row by an observationally equal one -/

theorem Summary.ext' {a b : Summary}
    (h1 : a.cashSalesInStore = b.cashSalesInStore)
    (h2 : a.cashSalesDelivery = b.cashSalesDelivery)
    (h3 : a.creditCardTipsInStore = b.creditCardTipsInStore)
    (h4 : a.creditCardTipsDelivery = b.creditCardTipsDelivery)
    (h5 : a.totalOrders = b.totalOrders)
    (h6 : a.averageOrderValue = b.averageOrderValue) : a = b := by
  cases a; cases b; simp_all

theorem sumBy_middle_congr (f : Row → ℚ) (q : Row → Bool) (A B : List Row) (r r' : Row)
    (hq : q r = q r') (hf : f r = f r') :
    sumBy f ((A ++ r :: B).filter q) = sumBy f ((A ++ r' :: B).filter q) := by
  rw [List.filter_append, List.filter_append, List.filter_cons, List.filter_cons, ← hq]
  cases q r <;> simp [sumBy, hf]

theorem summarizeFiltered_middle_congr (A B : List Row) (r r' : Row)
    (hTot : totalOf r = totalOf r') (hTip : tipsOf r = tipsOf r')
    (h1 : isCash r = isCash r') (h2 : isCard r = isCard r')
    (h3 : isInStoreType r = isInStoreType r') (h4 : isDeliveryType r = isDeliveryType r') :
    summarizeFiltered (A ++ r :: B) = summarizeFiltered (A ++ r' :: B) := by
  have elen : (A ++ r :: B).length = (A ++ r' :: B).length := by simp
  have etot : sumBy totalOf (A ++ r :: B) = sumBy totalOf (A ++ r' :: B) := by
    simp [sumBy, hTot]
  refine Summary.ext' ?_ ?_ ?_ ?_ ?_ ?_
  · rw [summarizeFiltered_cashIn, summarizeFiltered_cashIn]
    exact congrArg round2 (sumBy_middle_congr _ _ A B r r' (by rw [h1, h3]) hTot)
  · rw [summarizeFiltered_cashDel, summarizeFiltered_cashDel]
    exact congrArg round2 (sumBy_middle_congr _ _ A B r r' (by rw [h1, h4]) hTot)
  · rw [summarizeFiltered_tipsIn, summarizeFiltered_tipsIn]
    exact congrArg round2 (sumBy_middle_congr _ _ A B r r' (by rw [h2, h3]) hTip)
  · rw [summarizeFiltered_tipsDel, summarizeFiltered_tipsDel]
    exact congrArg round2 (sumBy_middle_congr _ _ A B r r' (by rw [h2, h4]) hTip)
  · rw [summarizeFiltered_totalOrders, summarizeFiltered_totalOrders, elen]
  · rw [summarizeFiltered_avg, summarizeFiltered_avg, elen, etot]

theorem rowPasses_congr (sh sm eh em : JsNum) (r r' : Row)
    (hD : r.Date = r'.Date) (hT : r.Time = r'.Time) :
    rowPasses sh sm eh em r = rowPasses sh sm eh em r' := by
  unfold rowPasses
  rw [hD, hT]

theorem summarize_middle_congr (sh sm eh em : JsNum) (A B : List Row) (r r' : Row)
    (hD : r.Date = r'.Date) (hT : r.Time = r'.Time)
    (hTot : totalOf r = totalOf r') (hTip : tipsOf r = tipsOf r')
    (h1 : isCash r = isCash r') (h2 : isCard r = isCard r')
    (h3 : isInStoreType r = isInStoreType r') (h4 : isDeliveryType r = isDeliveryType r') :
    summarize (A ++ r :: B) sh sm eh em = summarize (A ++ r' :: B) sh sm eh em := by
  unfold summarize
  rw [List.filter_append, List.filter_append, List.filter_cons, List.filter_cons,
    ← rowPasses_congr sh sm eh em r r' hD hT]
  cases rowPasses sh sm eh em r
  · simp
  · simp only [if_pos]
    exact summarizeFiltered_middle_congr _ _ r r' hTot hTip h1 h2 h3 h4

/-! ## C3: case-insensitivity of the classifications (corrected) -/

def rowDeliveryCash : Row :=
  ⟨ExcelVal.vStr "2025-03-26", ExcelVal.vStr "10:00 AM", some "Delivery", some "Cash", some 5, some 0⟩

def rowDELIVERYCash : Row :=
  ⟨ExcelVal.vStr "2025-03-26", ExcelVal.vStr "10:00 AM", some "DELIVERY", some "Cash", some 5, some 0⟩

def rowPickupCash : Row :=
  ⟨ExcelVal.vStr "2025-03-26", ExcelVal.vStr "10:00 AM", some "Pickup", some "Cash", some 5, some 0⟩

def rowPickupCASH : Row :=
  ⟨ExcelVal.vStr "2025-03-26", ExcelVal.vStr "10:00 AM", some "Pickup", some "CASH", some 5, some 0⟩

/-- C3 is false as stated: replacing the channel `"Delivery"` by its
case-variant `"DELIVERY"` changes `cashSalesDelivery` (the route tests
`row.Type?.includes('Delivery')`, a case-sensitive substring test), and
replacing the payment `"Cash"` by `"CASH"` changes `cashSalesInStore`
(`row.Payment?.includes('Cash')` is case-sensitive too). -/
theorem c3_counterexample :
    (summarize [rowDeliveryCash] (some 0) (some 0) (some 23) (some 59)).cashSalesDelivery
        ≠ (summarize [rowDELIVERYCash] (some 0) (some 0) (some 23) (some 59)).cashSalesDelivery
      ∧ (summarize [rowPickupCash] (some 0) (some 0) (some 23) (some 59)).cashSalesInStore
        ≠ (summarize [rowPickupCASH] (some 0) (some 0) (some 23) (some 59)).cashSalesInStore := by
  constructor <;> with_unfolding_all decide

/-- C3 as amended: the in-store channel synonym match and the credit-card
payment match are case-insensitive (`/.../i` regexes), while the
`"Cash"`-payment and `"Delivery"`-channel tests are case-sensitive
substring containment; hence replacing a record's channel and payment by
case-variants leaves all six Summary fields unchanged provided the
variants do not change the case-sensitive containment of `"Delivery"` in
the channel and of `"Cash"` in the payment. -/
theorem c3_amended_case_insensitivity (A B : List Row) (r : Row) (t t' p p' : String)
    (hlt : t.toLower = t'.toLower) (hlp : p.toLower = p'.toLower)
    (hd : jsIncludes t "Delivery" = jsIncludes t' "Delivery")
    (hc : jsIncludes p "Cash" = jsIncludes p' "Cash")
    (sh sm eh em : JsNum) :
    summarize (A ++ { r with Type_ := some t, Payment := some p } :: B) sh sm eh em
      = summarize (A ++ { r with Type_ := some t', Payment := some p' } :: B) sh sm eh em := by
  apply summarize_middle_congr <;>
    simp [isCash, isCard, isInStoreType, isDeliveryType, totalOf, tipsOf, jsTestCI,
      hd, hc, hlt, hlp]

/-- Witness for the amended C3: `"Visa"`/`"VISA"` and `"Pickup"`/`"PICKUP"`
case-variants produce identical summaries. -/
theorem c3_amended_case_insensitivity_witness :
    summarize [⟨ExcelVal.vStr "2025-03-26", ExcelVal.vStr "10:00 AM", some "Pickup", some "Visa",
        some 20, some 3⟩] (some 0) (some 0) (some 23) (some 59)
      = summarize [⟨ExcelVal.vStr "2025-03-26", ExcelVal.vStr "10:00 AM", some "PICKUP", some "VISA",
        some 20, some 3⟩] (some 0) (some 0) (some 23) (some 59) :=
  c3_amended_case_insensitivity [] []
    ⟨ExcelVal.vStr "2025-03-26", ExcelVal.vStr "10:00 AM", none, none, some 20, some 3⟩
    "Pickup" "PICKUP" "Visa" "VISA" (by with_unfolding_all decide)
    (by with_unfolding_all decide) (by decide) (by decide)
    (some 0) (some 0) (some 23) (some 59)

/-! ## C4: bucket disjointness (corrected) -/

/-- How many of the four monetary buckets a record's predicates select. -/
def bucketCount (r : Row) : Nat :=
  (if isCash r && isInStoreType r then 1 else 0)
    + (if isCash r && isDeliveryType r then 1 else 0)
    + (if isCard r && isInStoreType r then 1 else 0)
    + (if isCard r && isDeliveryType r then 1 else 0)

/-- A row whose channel matches both the in-store synonyms and contains
`"Delivery"`, and whose payment both contains `"Cash"` and matches the
card pattern. -/
def rowMulti : Row :=
  ⟨ExcelVal.vStr "2025-03-26", ExcelVal.vStr "10:00 AM", some "Pickup Delivery", some "Cash Visa",
    some 1, some 10⟩

/-- C4 is false as stated: `rowMulti` passes the filter, satisfies all
four bucket predicates (so its amounts are added to all four buckets),
and the four bucket sums (1 + 1 + 10 + 10 = 22) exceed the sum of `total`
over the filtered records (1), because the predicates are not mutually
exclusive and the tip buckets add `tip`, which is not part of `total`. -/
theorem c4_counterexample :
    rowPasses (some 0) (some 0) (some 23) (some 59) rowMulti = true
      ∧ (isCash rowMulti && isInStoreType rowMulti) = true
      ∧ (isCash rowMulti && isDeliveryType rowMulti) = true
      ∧ (isCard rowMulti && isInStoreType rowMulti) = true
      ∧ (isCard rowMulti && isDeliveryType rowMulti) = true
      ∧ bucketCount rowMulti = 4
      ∧ ¬((summarize [rowMulti] (some 0) (some 0) (some 23) (some 59)).cashSalesInStore
            + (summarize [rowMulti] (some 0) (some 0) (some 23) (some 59)).cashSalesDelivery
            + (summarize [rowMulti] (some 0) (some 0) (some 23) (some 59)).creditCardTipsInStore
            + (summarize [rowMulti] (some 0) (some 0) (some 23) (some 59)).creditCardTipsDelivery
          ≤ sumBy totalOf
              ([rowMulti].filter (rowPasses (some 0) (some 0) (some 23) (some 59)))) := by
  refine ⟨?_, ?_, ?_, ?_, ?_, ?_, ?_⟩ <;> with_unfolding_all decide

theorem sumBy_cons (f : Row → ℚ) (a : Row) (l : List Row) :
    sumBy f (a :: l) = f a + sumBy f l := by
  simp [sumBy]

/-- Two disjoint filters of a list with pointwise-nonnegative weights sum
to at most the whole list's sum. -/
theorem sumBy_filter_disjoint_le (l : List Row) (p q : Row → Bool) (f : Row → ℚ)
    (hdisj : ∀ r ∈ l, ¬(p r = true ∧ q r = true)) (hpos : ∀ r ∈ l, 0 ≤ f r) :
    sumBy f (l.filter p) + sumBy f (l.filter q) ≤ sumBy f l := by
  induction l with
  | nil => simp [sumBy]
  | cons a l ih =>
    have ha := hdisj a (List.mem_cons_self a l)
    have hfa := hpos a (List.mem_cons_self a l)
    have ih' := ih (fun r hr => hdisj r (List.mem_cons_of_mem a hr))
      (fun r hr => hpos r (List.mem_cons_of_mem a hr))
    rw [List.filter_cons, List.filter_cons, sumBy_cons]
    by_cases hp : p a = true <;> by_cases hq : q a = true
    · exact absurd ⟨hp, hq⟩ ha
    · rw [if_pos hp, if_neg hq, sumBy_cons]
      linarith
    · rw [if_neg hp, if_pos hq, sumBy_cons]
      linarith
    · rw [if_neg hp, if_neg hq]
      linarith

/-- C4 as amended: the four bucket predicates are not a partition in
general, but whenever no record's payment both contains `"Cash"` and
matches the card pattern, and no record's channel both matches the
in-store synonyms and contains `"Delivery"`, each record is selected by
at most one bucket; under nonnegative amounts the two cash bucket sums
(pre-rounding) are at most the sum of `total` over the filtered records
and the two tip bucket sums at most the sum of `tip`; and every filtered
record, including OTHER/OTHER ones, contributes to `totalOrders` and
`averageOrderValue` regardless of its classification. -/
theorem c4_amended_buckets (rows : List Row) (sh sm eh em : JsNum)
    (hpay : ∀ r ∈ rows, ¬(isCash r = true ∧ isCard r = true))
    (htype : ∀ r ∈ rows, ¬(isInStoreType r = true ∧ isDeliveryType r = true))
    (htot : ∀ r ∈ rows, 0 ≤ totalOf r) (htip : ∀ r ∈ rows, 0 ≤ tipsOf r) :
    (∀ r ∈ rows, bucketCount r ≤ 1)
      ∧ sumBy totalOf
            ((rows.filter (rowPasses sh sm eh em)).filter fun r => isCash r && isInStoreType r)
          + sumBy totalOf
            ((rows.filter (rowPasses sh sm eh em)).filter fun r => isCash r && isDeliveryType r)
          ≤ sumBy totalOf (rows.filter (rowPasses sh sm eh em))
      ∧ sumBy tipsOf
            ((rows.filter (rowPasses sh sm eh em)).filter fun r => isCard r && isInStoreType r)
          + sumBy tipsOf
            ((rows.filter (rowPasses sh sm eh em)).filter fun r => isCard r && isDeliveryType r)
          ≤ sumBy tipsOf (rows.filter (rowPasses sh sm eh em))
      ∧ (summarize rows sh sm eh em).totalOrders
          = (rows.filter (rowPasses sh sm eh em)).length
      ∧ ((rows.filter (rowPasses sh sm eh em)).length ≠ 0 →
          (summarize rows sh sm eh em).averageOrderValue
            = round2 (sumBy totalOf (rows.filter (rowPasses sh sm eh em))
                / ((rows.filter (rowPasses sh sm eh em)).length : ℚ))) := by
  refine ⟨?_, ?_, ?_, ?_, ?_⟩
  · intro r hr
    have h1 := hpay r hr
    have h2 := htype r hr
    unfold bucketCount
    cases hc : isCash r <;> cases hk : isCard r <;>
      cases hs : isInStoreType r <;> cases hd : isDeliveryType r <;> simp_all
  · refine sumBy_filter_disjoint_le _ _ _ _ ?_ ?_
    · intro r hr ⟨ha, hb⟩
      rw [Bool.and_eq_true] at ha hb
      exact htype r (List.mem_of_mem_filter hr) ⟨ha.2, hb.2⟩
    · exact fun r hr => htot r (List.mem_of_mem_filter hr)
  · refine sumBy_filter_disjoint_le _ _ _ _ ?_ ?_
    · intro r hr ⟨ha, hb⟩
      rw [Bool.and_eq_true] at ha hb
      exact htype r (List.mem_of_mem_filter hr) ⟨ha.2, hb.2⟩
    · exact fun r hr => htip r (List.mem_of_mem_filter hr)
  · rw [summarize, summarizeFiltered_totalOrders]
  · intro h
    rw [summarize, summarizeFiltered_avg, if_pos (Nat.pos_of_ne_zero h)]

/-- Witness for the amended C4 at a two-record dataset with disjoint
classifications. -/
theorem c4_amended_buckets_witness :
    bucketCount (demoRows.get ⟨0, by decide⟩) ≤ 1 :=
  (c4_amended_buckets demoRows (some 7) (some 0) (some 15) (some 0)
      (by with_unfolding_all decide) (by with_unfolding_all decide)
      (by with_unfolding_all decide) (by with_unfolding_all decide)).1
    (demoRows.get ⟨0, by decide⟩) (by decide)

/-! ## C5: rounding applied once, at output -/

/-- A row whose total is 0.004: two of them sum to 0.008, which rounds to
0.01, while per-row rounding would give 0. -/
def rowTiny : Row :=
  ⟨ExcelVal.vStr "2025-03-26", ExcelVal.vStr "10:00 AM", some "Pickup", some "Cash",
    some (1/250), some 0⟩

/-- C5. Every monetary Summary field is the full-precision sum of the
relevant per-record amounts rounded to 2 decimals exactly once, as the
final step (`round2` applied to the `reduce` result); and the output is
`round2` of the sum rather than the sum of per-row `round2` values, which
differs on a concrete input. -/
theorem c5_round_once :
    (∀ (rows : List Row) (sh sm eh em : JsNum),
        (summarize rows sh sm eh em).cashSalesInStore
            = round2 (sumBy totalOf
                ((rows.filter (rowPasses sh sm eh em)).filter fun r =>
                  isCash r && isInStoreType r))
          ∧ (summarize rows sh sm eh em).cashSalesDelivery
            = round2 (sumBy totalOf
                ((rows.filter (rowPasses sh sm eh em)).filter fun r =>
                  isCash r && isDeliveryType r))
          ∧ (summarize rows sh sm eh em).creditCardTipsInStore
            = round2 (sumBy tipsOf
                ((rows.filter (rowPasses sh sm eh em)).filter fun r =>
                  isCard r && isInStoreType r))
          ∧ (summarize rows sh sm eh em).creditCardTipsDelivery
            = round2 (sumBy tipsOf
                ((rows.filter (rowPasses sh sm eh em)).filter fun r =>
                  isCard r && isDeliveryType r))
          ∧ (summarize rows sh sm eh em).averageOrderValue
            = round2 (if (rows.filter (rowPasses sh sm eh em)).length > 0 then
                sumBy totalOf (rows.filter (rowPasses sh sm eh em))
                  / ((rows.filter (rowPasses sh sm eh em)).length : ℚ)
              else 0))
      ∧ (summarize [rowTiny, rowTiny] (some 0) (some 0) (some 23) (some 59)).cashSalesInStore
          ≠ sumBy (fun r => round2 (totalOf r))
              (([rowTiny, rowTiny].filter
                  (rowPasses (some 0) (some 0) (some 23) (some 59))).filter fun r =>
                isCash r && isInStoreType r) := by
  constructor
  · exact fun rows sh sm eh em => ⟨rfl, rfl, rfl, rfl, rfl⟩
  · with_unfolding_all decide

/-! ## C6: malformed rows are skipped without affecting the rest -/

/-- A row is usable by the filter iff its `Date`/`Time` fields pass the
string guard and its time-of-day parses under the regex. -/
def canParseRow (r : Row) : Bool :=
  dateTimeFieldsOk r && (parsedHM r).isSome

/-- C6. Inserting a record whose time-of-day cannot be parsed (time like
`"garbage"`, or a missing or non-string `Date` or `Time` field) anywhere
in the sequence leaves the whole Summary unchanged: the malformed record
is excluded from all aggregation and the remaining records are processed
as before. -/
theorem c6_malformed_row_skipped (A B : List Row) (b : Row) (sh sm eh em : JsNum)
    (hb : canParseRow b = false) :
    summarize (A ++ b :: B) sh sm eh em = summarize (A ++ B) sh sm eh em := by
  have hpass : rowPasses sh sm eh em b = false := by
    unfold canParseRow dateTimeFieldsOk parsedHM at hb
    unfold rowPasses
    cases hD : b.Date <;> cases hT : b.Time <;> rw [hD, hT] at hb <;> try rfl
    case vStr.vStr d t =>
      by_cases hd : d = "" <;> by_cases ht : t = "" <;> simp [hd, ht] at hb ⊢
      cases hpt : parseTime t
      · simp
      · rw [hpt] at hb
        simp at hb
  unfold summarize
  rw [List.filter_append, List.filter_append, List.filter_cons, hpass]
  simp

/-- A record whose `Time` does not match the time regex. -/
def rowGarbage : Row :=
  ⟨ExcelVal.vStr "2025-03-26", ExcelVal.vStr "garbage", some "Pickup", some "Cash", some 10, none⟩

/-- Witness for C6: adding the `"garbage"`-time record to `demoRows`
changes nothing. -/
theorem c6_malformed_row_skipped_witness :
    canParseRow rowGarbage = false
      ∧ summarize (demoRows ++ rowGarbage :: []) (some 7) (some 0) (some 15) (some 0)
          = summarize (demoRows ++ []) (some 7) (some 0) (some 15) (some 0) :=
  ⟨by decide,
    c6_malformed_row_skipped demoRows [] rowGarbage (some 7) (some 0) (some 15) (some 0)
      (by decide)⟩

/-! ## C7: fallback Summary on Report-Source failure -/

/-- C7. In development mode with credentials configured, every
Report-Source failure (automation failure before the download, missing
exported file, undecodable artifact) produces an HTTP 200 response whose
body is Summary-shaped, carries exactly the documented fallback dataset
(`mockData`), keeps its `_note`, and has the `_error` indicator set; the
cache is untouched. -/
theorem c7_fallback_on_failure (env : Env) (outcome : FetchOutcome) (s e : String)
    (cache : Cache) (cur : String)
    (hdev : env.nodeEnv ≠ "production")
    (huser : usernameOk env.hungerRushUsername = true)
    (hfail : outcome.isFailure = true) :
    (POST env outcome s e cache cur).1.status = 200
      ∧ (∃ b : ApiBody, (POST env outcome s e cache cur).1.body = RespBody.report b
          ∧ b.cashSalesInStore = mockBody.cashSalesInStore
          ∧ b.cashSalesDelivery = mockBody.cashSalesDelivery
          ∧ b.creditCardTipsInStore = mockBody.creditCardTipsInStore
          ∧ b.creditCardTipsDelivery = mockBody.creditCardTipsDelivery
          ∧ b.totalOrders = mockBody.totalOrders
          ∧ b.averageOrderValue = mockBody.averageOrderValue
          ∧ b.note = some "This is cached data. For live data, run the app locally."
          ∧ b.errMsg.isSome = true)
      ∧ (POST env outcome s e cache cur).2.1 = cache := by
  unfold POST
  rw [if_neg hdev, if_neg (by simp [huser])]
  cases outcome with
  | ok rows => simp [FetchOutcome.isFailure] at hfail
  | failBeforeDownload k msg =>
    exact ⟨rfl, ⟨_, rfl, rfl, rfl, rfl, rfl, rfl, rfl, rfl, rfl⟩, rfl⟩
  | exportFailed =>
    exact ⟨rfl, ⟨_, rfl, rfl, rfl, rfl, rfl, rfl, rfl, rfl, rfl⟩, rfl⟩
  | parseFailed msg =>
    exact ⟨rfl, ⟨_, rfl, rfl, rfl, rfl, rfl, rfl, rfl, rfl, rfl⟩, rfl⟩

/-- Witness for C7 at a concrete missing-download failure. -/
theorem c7_fallback_on_failure_witness :
    (POST ⟨"development", some "user"⟩ FetchOutcome.exportFailed
        "2025-03-26T07:00:00.000Z" "2025-03-26T15:00:00.000Z" [] "idle").1.status = 200 :=
  (c7_fallback_on_failure ⟨"development", some "user"⟩ FetchOutcome.exportFailed
      "2025-03-26T07:00:00.000Z" "2025-03-26T15:00:00.000Z" [] "idle"
      (by decide) (by decide) (by decide)).1

/-! ## C8: status stage after a failing run (corrected) -/

/-- C8 is false as stated: a run that fails because no exported file
materializes returns the fallback response, yet the status observable via
the status query afterwards is `"exporting"` (the last mapped stage: the
final message `"Looking for downloaded Excel file..."` contains
`"Excel"`), not `"error"`. -/
theorem c8_counterexample :
    (POST ⟨"development", some "user"⟩ FetchOutcome.exportFailed
        "2025-03-26T07:00:00.000Z" "2025-03-26T15:00:00.000Z" [] "idle").1.status = 200
      ∧ (POST ⟨"development", some "user"⟩ FetchOutcome.exportFailed
          "2025-03-26T07:00:00.000Z" "2025-03-26T15:00:00.000Z" [] "idle").1.body
          = RespBody.report
              { mockBody with
                errMsg :=
                  some "Failed to process file: Excel file not found in downloads folder" }
      ∧ (POST ⟨"development", some "user"⟩ FetchOutcome.exportFailed
          "2025-03-26T07:00:00.000Z" "2025-03-26T15:00:00.000Z" [] "idle").2.2
          = "exporting"
      ∧ (POST ⟨"development", some "user"⟩ FetchOutcome.exportFailed
          "2025-03-26T07:00:00.000Z" "2025-03-26T15:00:00.000Z" [] "idle").2.2
          ≠ "error" := by
  refine ⟨rfl, rfl, ?_, ?_⟩ <;> with_unfolding_all decide

theorem updateStatusStep_ne_error (cur msg : String) (h : cur ≠ "error") :
    updateStatusStep cur msg ≠ "error" := by
  unfold updateStatusStep
  split_ifs <;> first | decide | exact h

theorem foldl_status_ne_error (msgs : List String) (cur : String) (h : cur ≠ "error") :
    msgs.foldl updateStatusStep cur ≠ "error" := by
  induction msgs generalizing cur with
  | nil => exact h
  | cons m ms ih => exact ih _ (updateStatusStep_ne_error cur m h)

set_option maxHeartbeats 2000000 in
/-- C8 as amended: the handler never transitions the status to `"error"`
(`updateStatus` has no branch producing it); after any run — in
particular any run returning the fallback — the reported status is the
last mapped stage reached before the failure, never `"error"`, so the
error indication for callers is only the `_error` field of the response
body. -/
theorem c8_amended_never_error_stage (env : Env) (outcome : FetchOutcome) (s e : String)
    (cache : Cache) (cur : String) (h : cur ≠ "error") :
    (POST env outcome s e cache cur).2.2 ≠ "error" := by
  unfold POST
  by_cases hp : env.nodeEnv = "production"
  · rw [if_pos hp]
    cases cacheLookup cache (s ++ "-" ++ e) <;> exact h
  · rw [if_neg hp]
    by_cases hu : usernameOk env.hungerRushUsername = false
    · rw [if_pos hu]
      exact h
    · rw [if_neg hu]
      cases outcome with
      | ok rows =>
        cases hw : extractWindow s e <;>
          exact foldl_status_ne_error _ _ h
      | failBeforeDownload k msg => exact foldl_status_ne_error _ _ h
      | exportFailed => exact foldl_status_ne_error _ _ h
      | parseFailed msg => exact foldl_status_ne_error _ _ h

/-- Witness for the amended C8 at a concrete failing run started from the
idle status. -/
theorem c8_amended_never_error_stage_witness :
    (POST ⟨"development", some "user"⟩ (FetchOutcome.failBeforeDownload 3 "timeout")
        "2025-03-26T07:00:00.000Z" "2025-03-26T15:00:00.000Z" [] "idle").2.2 ≠ "error" :=
  c8_amended_never_error_stage ⟨"development", some "user"⟩
    (FetchOutcome.failBeforeDownload 3 "timeout")
    "2025-03-26T07:00:00.000Z" "2025-03-26T15:00:00.000Z" [] "idle" (by decide)

/-! ## C9: the request's calendar-date components are irrelevant -/

theorem extractWindow_congr (s1 e1 s2 e2 : String)
    (hs : (s1.splitOn "T")[1]? = (s2.splitOn "T")[1]?)
    (he : (e1.splitOn "T")[1]? = (e2.splitOn "T")[1]?) :
    extractWindow s1 e1 = extractWindow s2 e2 := by
  unfold extractWindow
  rw [hs, he]

/-- C9. Two requests whose start/end strings have the same text after the
first `'T'` (in particular: identical time-of-day, different calendar
dates) produce the identical response on the same order data: the date
portions are accepted but never influence filtering or aggregation. -/
theorem c9_date_components_irrelevant (env : Env) (rows : List Row) (s1 e1 s2 e2 : String)
    (cache : Cache) (cur : String)
    (hdev : env.nodeEnv ≠ "production")
    (huser : usernameOk env.hungerRushUsername = true)
    (hs : (s1.splitOn "T")[1]? = (s2.splitOn "T")[1]?)
    (he : (e1.splitOn "T")[1]? = (e2.splitOn "T")[1]?) :
    (POST env (FetchOutcome.ok rows) s1 e1 cache cur).1
      = (POST env (FetchOutcome.ok rows) s2 e2 cache cur).1 := by
  have h2 : ¬(usernameOk env.hungerRushUsername = false) := by simp [huser]
  unfold POST
  simp only [if_neg hdev, if_neg h2]
  rw [extractWindow_congr s1 e1 s2 e2 hs he]
  cases extractWindow s2 e2 <;> rfl

/-- Witness for C9: the same data with the dates 2025-03-26 and 1999-01-01
yields the same response. -/
theorem c9_date_components_irrelevant_witness :
    (POST ⟨"development", some "user"⟩ (FetchOutcome.ok demoRows)
        "2025-03-26T07:00:00.000Z" "2025-03-26T15:00:00.000Z" [] "idle").1
      = (POST ⟨"development", some "user"⟩ (FetchOutcome.ok demoRows)
          "1999-01-01T07:00:00.000Z" "1999-01-01T15:00:00.000Z" [] "idle").1 :=
  c9_date_components_irrelevant ⟨"development", some "user"⟩ demoRows
    "2025-03-26T07:00:00.000Z" "2025-03-26T15:00:00.000Z"
    "1999-01-01T07:00:00.000Z" "1999-01-01T15:00:00.000Z" [] "idle"
    (by decide) (by decide) (by with_unfolding_all decide) (by with_unfolding_all decide)

/-! ## C10: production branch -/

/-- C10. With `NODE_ENV = 'production'` the handler performs no
automation and returns, with HTTP 200, either the cache entry stored
under the exact key `startDateTime + "-" + endDateTime` or otherwise the
fixed mock dataset (256.75 / 124.50 / 45.25 / 32.80 / 24 orders / 42.33
average, with a `_note`); the cache and the status are never written in
this mode. -/
theorem c10_production_branch (env : Env) (outcome : FetchOutcome) (s e : String)
    (cache : Cache) (cur : String) (hprod : env.nodeEnv = "production") :
    (POST env outcome s e cache cur).1.status = 200
      ∧ (POST env outcome s e cache cur).1.body
          = (match cacheLookup cache (s ++ "-" ++ e) with
             | some v => RespBody.report (bodyOfSummary v)
             | none => RespBody.report mockBody)
      ∧ (POST env outcome s e cache cur).2.1 = cache
      ∧ (POST env outcome s e cache cur).2.2 = cur
      ∧ mockBody.cashSalesInStore = 256.75
      ∧ mockBody.cashSalesDelivery = 124.50
      ∧ mockBody.creditCardTipsInStore = 45.25
      ∧ mockBody.creditCardTipsDelivery = 32.80
      ∧ mockBody.totalOrders = 24
      ∧ mockBody.averageOrderValue = 42.33
      ∧ mockBody.note.isSome = true := by
  unfold POST
  rw [if_pos hprod]
  cases hl : cacheLookup cache (s ++ "-" ++ e) <;>
    exact ⟨rfl, rfl, rfl, rfl, rfl, rfl, rfl, rfl, rfl, rfl, rfl⟩

/-- Witness for C10: a production request with an empty cache returns the
mock dataset and leaves the cache empty. -/
theorem c10_production_branch_witness :
    (POST ⟨"production", none⟩ (FetchOutcome.ok demoRows)
        "2025-03-26T07:00:00.000Z" "2025-03-26T15:00:00.000Z" [] "idle").1.status = 200 :=
  (c10_production_branch ⟨"production", none⟩ (FetchOutcome.ok demoRows)
      "2025-03-26T07:00:00.000Z" "2025-03-26T15:00:00.000Z" [] "idle" rfl).1

end HungerRush
